import Mathlib

/-!
Shallow embedding of the MirrorNet repository's notification aggregator,
user-provisioning batch, goal-suggestion dialog and circle-detail member
row, together with theorems settling the specification claims.

Sources embedded:
* `src/unnamed/part_000` — the app layout (`AppLayout`), in particular the
  `fetchNotifications` aggregation effect (lines 85-101).
* `src/src/lib/data.ts` — the data-access module: entity types,
  `createNewUserData`, and the surrounding batch machinery.
* `src/src/app/circles/[id]/page.tsx` — `MemberListItem` and `GoalDialog`.

Function bodies that the repository snapshot truncates
(`getReceivedInvitesForUser`, `getRevealRequestsForUser`,
`getFamilyGoalsForUser`, `defaultCircles`, `processInvitesForNewUser`,
`sendFamilyGoal`) are modelled from the spec; each such definition says so
in its doc comment.
-/

namespace MirrorNet

/-! ## Data model (types from `src/src/lib/data.ts`) -/

/-- Status of an `Invite` (`"pending" | "accepted" | "declined"` in `data.ts`). -/
inductive InviteStatus where
  | pending
  | accepted
  | declined
deriving DecidableEq, Repr

/-- Status of a `RevealRequest` (`'pending' | 'accepted' | 'declined'`). -/
inductive RevealStatus where
  | pending
  | accepted
  | declined
deriving DecidableEq, Repr

/-- Status of a `FamilyGoal` (`'pending' | 'active' | 'declined' | 'completed'`). -/
inductive GoalStatus where
  | pending
  | active
  | declined
  | completed
deriving DecidableEq, Repr

/-- The `Invite` record of `data.ts` (display-only populated objects
`fromUser`/`toUser` and the `createdAt` timestamp are omitted; optional
fields become `Option`). -/
structure Invite where
  id : String
  fromUserId : String
  toEmail : Option String := none
  toUserId : Option String := none
  circleId : Option String := none
  circleName : Option String := none
  status : InviteStatus
deriving DecidableEq, Repr

/-- The `RevealRequest` record of `data.ts` (timestamps and populated
`fromUser` omitted). -/
structure RevealRequest where
  id : String
  fromUserId : String
  toUserId : String
  ratingId : String
  status : RevealStatus
deriving DecidableEq, Repr

/-- The `FamilyGoal` record of `data.ts` (timestamps, populated users and
the optional `tip` omitted). -/
structure FamilyGoal where
  id : String
  fromUserId : String
  toUserId : String
  trait : String
  status : GoalStatus
deriving DecidableEq, Repr

/-- The signed-in session user as consumed by `AppLayout` via `useUser()`:
only `id` and the `isPremium` flag are read by the aggregator (JS
`undefined` for `isPremium` is falsy, hence a plain `Bool`). -/
structure SessionUser where
  id : String
  isPremium : Bool
deriving DecidableEq, Repr

/-- The remote document store as seen by the three notification fetches. -/
structure NotifStore where
  invites : List Invite
  revealRequests : List RevealRequest
  familyGoals : List FamilyGoal
deriving Repr

/-! ## Notification aggregator (`fetchNotifications`, `src/unnamed/part_000`) -/

/-- JS truthiness of an optional string, as used by `!!invite.circleId`:
`undefined` and the empty string are falsy. -/
def jsTruthy : Option String → Bool
  | none => false
  | some s => !(s == "")

/-- Modelled from the spec: the body of `getReceivedInvitesForUser` is not
in the repository snapshot (only its import in `src/unnamed/part_000`).
Per spec §4.1/§8 it returns the invites received by the user
(`toUser == U`). -/
def getReceivedInvitesForUser (uid : String) (invites : List Invite) : List Invite :=
  invites.filter (fun i => i.toUserId == some uid)

/-- Modelled from the spec: the body of `getRevealRequestsForUser` is not
in the repository snapshot. Per spec §2/§8 the badge counts the user's
pending reveal requests, so the fetch returns reveal requests directed at
the user that are still `pending`. -/
def getRevealRequestsForUser (uid : String) (reqs : List RevealRequest) : List RevealRequest :=
  reqs.filter (fun r => r.toUserId == uid && r.status == RevealStatus.pending)

/-- Modelled from the spec: the body of `getFamilyGoalsForUser` is not in
the repository snapshot. Per spec §4.1/§2 the fetch returns the pending
family-goal suggestions directed at the user. -/
def getFamilyGoalsForUser (uid : String) (goals : List FamilyGoal) : List FamilyGoal :=
  goals.filter (fun g => g.toUserId == uid && g.status == GoalStatus.pending)

/-- The filter applied to received invites in `fetchNotifications`
(line 93 of `src/unnamed/part_000`):
`invite => !!invite.circleId && invite.status === 'pending'`. -/
def actionableInvite (i : Invite) : Bool :=
  jsTruthy i.circleId && i.status == InviteStatus.pending

/-- The three badge counts held in `AppLayout` state
(`inviteCount`, `revealRequestCount`, `goalSuggestionCount`). -/
structure BadgeCounts where
  inviteCount : Nat
  revealRequestCount : Nat
  goalSuggestionCount : Nat
deriving DecidableEq, Repr

/-- The successful path of `fetchNotifications` (lines 87-97 of
`src/unnamed/part_000`): fetch received invites, reveal requests (only if
premium, else the resolved empty list) and family goals, filter invites to
the actionable ones, and produce the three badge counts. -/
def fetchNotifications (u : SessionUser) (st : NotifStore) : BadgeCounts :=
  let receivedInvites := getReceivedInvitesForUser u.id st.invites
  let revealRequests := if u.isPremium then getRevealRequestsForUser u.id st.revealRequests else []
  let familyGoals := getFamilyGoalsForUser u.id st.familyGoals
  let actionableInvites := receivedInvites.filter actionableInvite
  { inviteCount := actionableInvites.length
    revealRequestCount := revealRequests.length
    goalSuggestionCount := familyGoals.length }

/-- `Promise.all` over the three independent fetches: succeeds with the
triple when all succeed, otherwise rejects. -/
def promiseAll3 {ε α β γ : Type} :
    Except ε α → Except ε β → Except ε γ → Except ε (α × β × γ)
  | Except.ok a, Except.ok b, Except.ok c => Except.ok (a, b, c)
  | Except.error e, _, _ => Except.error e
  | Except.ok _, Except.error e, _ => Except.error e
  | Except.ok _, Except.ok _, Except.error e => Except.error e

/-- One aggregation cycle of `fetchNotifications` with fallible fetches:
each issued fetch either resolves (`Except.ok`) or rejects; for a
non-premium user the reveal-request slot is `Promise.resolve([])` and the
corresponding fetch result is never consulted. Returns the new badge
counts or the propagated rejection. -/
def fetchCycle {ε : Type} (u : SessionUser)
    (rInv : Except ε (List Invite)) (rRev : Except ε (List RevealRequest))
    (rGoal : Except ε (List FamilyGoal)) : Except ε BadgeCounts :=
  match promiseAll3 rInv (if u.isPremium then rRev else Except.ok []) rGoal with
  | Except.ok (inv, rev, goals) =>
      Except.ok
        { inviteCount := (inv.filter actionableInvite).length
          revealRequestCount := rev.length
          goalSuggestionCount := goals.length }
  | Except.error e => Except.error e

/-- The effect of one aggregation cycle on the badge state: the three
`set*` calls run only after the awaited `Promise.all` resolves, so a
rejected cycle leaves the previous counts in place. -/
def updateBadges {ε : Type} (prev : BadgeCounts) (r : Except ε BadgeCounts) : BadgeCounts :=
  match r with
  | Except.ok c => c
  | Except.error _ => prev

/-- `true` iff the `Except` is a resolved result. -/
def exceptOk {ε α : Type} : Except ε α → Bool
  | Except.ok _ => true
  | Except.error _ => false

/-! ## User provisioning (`createNewUserData`, `src/src/lib/data.ts`) -/

/-- Firestore scalar field values, covering the fields written by
`createNewUserData`. -/
inductive FsValue where
  | str : String → FsValue
  | nat : Nat → FsValue
  | bool : Bool → FsValue
  | timestamp : Nat → FsValue
deriving DecidableEq, Repr

/-- A Firestore document: a partial assignment of values to field names. -/
def FsDoc : Type := String → Option FsValue

/-- The empty document (target of a `set` on a nonexistent reference). -/
def emptyDoc : FsDoc := fun _ => none

/-- Firestore `set(..., { merge: true })` on this flat payload shape: a
field named in the payload takes the payload's value, every other field
keeps the value already on the document. -/
def setMerge (old : FsDoc) (payload : FsDoc) : FsDoc :=
  fun k =>
    match payload k with
    | some v => some v
    | none => old k

/-- The `newUser` payload built in `createNewUserData`
(`data.ts` lines 190-200): the nine written fields, with the computed
string/timestamp values passed in as parameters (the upstream JS string
fallbacks that compute them do not affect which fields exist). Note the
absence of `stripeId`, `isAdmin` and `id`. -/
def newUserPayload (displayName firstName lastName email photoUrl : String)
    (createdAt : Nat) : FsDoc :=
  fun k =>
    if k == "displayName" then some (FsValue.str displayName)
    else if k == "firstName" then some (FsValue.str firstName)
    else if k == "lastName" then some (FsValue.str lastName)
    else if k == "displayName_lowercase" then some (FsValue.str displayName.toLower)
    else if k == "email" then some (FsValue.str email)
    else if k == "photoUrl" then some (FsValue.str photoUrl)
    else if k == "createdAt" then some (FsValue.timestamp createdAt)
    else if k == "isPremium" then some (FsValue.bool false)
    else if k == "revealTokens" then some (FsValue.nat 0)
    else none

/-- A circle document as staged by `createNewUserData`: the default-circle
template data spread together with `ownerId` and `memberIds`
(`data.ts` lines 212-216). Trait templates are display data and omitted. -/
structure CircleDoc where
  name : String
  ownerId : String
  memberIds : List String
deriving DecidableEq, Repr

/-- One staged operation of the Firestore `writeBatch`. The
`updateInviteToUser` constructor exists so that "the batch stages no
invite write" is a contentful statement. -/
inductive BatchOp where
  | setUserMerge : String → FsDoc → BatchOp
  | setCircle : String → CircleDoc → BatchOp
  | updateInviteToUser : String → String → BatchOp

/-- Whether a staged operation writes an invite. -/
def BatchOp.isInviteOp : BatchOp → Bool
  | BatchOp.updateInviteToUser _ _ => true
  | _ => false

/-- Whether a staged operation is a circle `set`. -/
def BatchOp.isCircleSet : BatchOp → Bool
  | BatchOp.setCircle _ _ => true
  | _ => false

/-- The circle name staged by a circle `set` (junk on other operations). -/
def BatchOp.circleName : BatchOp → String
  | BatchOp.setCircle _ d => d.name
  | _ => ""

/-- The owner id staged by a circle `set` (junk on other operations). -/
def BatchOp.circleOwnerId : BatchOp → String
  | BatchOp.setCircle _ d => d.ownerId
  | _ => ""

/-- The member-id list staged by a circle `set` (junk on other operations). -/
def BatchOp.circleMemberIds : BatchOp → List String
  | BatchOp.setCircle _ d => d.memberIds
  | _ => []

/-- Modelled from the spec: the `defaultCircles` template list is referenced
by `createNewUserData` but its definition is not in the repository
snapshot. Per spec §3/§8 there is one default circle per fixed kind:
Friends, Family, Work, General (4 default circles). -/
def defaultCircles : List String := ["Friends", "Family", "Work", "General"]

/-- The operations staged by `createNewUserData` into its `writeBatch`
(`data.ts` lines 203-218): the merged user `set`, then one circle `set`
per entry of `defaultCircles`, each at a fresh document reference
(`gen i`) carrying the template data with `ownerId` the new uid and
`memberIds` the singleton of the new uid. -/
def createNewUserBatch (uid : String) (payload : FsDoc) (gen : Nat → String) : List BatchOp :=
  BatchOp.setUserMerge uid payload ::
    defaultCircles.enum.map (fun p =>
      BatchOp.setCircle (gen p.1) { name := p.2, ownerId := uid, memberIds := [uid] })

/-- The document store touched by provisioning: user documents, circle
documents, and the invites collection. -/
structure ProvisionStore where
  users : String → Option FsDoc
  circles : String → Option CircleDoc
  invites : List Invite

/-- Apply one staged batch operation to the store. -/
def applyOp (st : ProvisionStore) : BatchOp → ProvisionStore
  | BatchOp.setUserMerge uid payload =>
      { st with users := fun k =>
          if k == uid then some (setMerge ((st.users uid).getD emptyDoc) payload)
          else st.users k }
  | BatchOp.setCircle cid data =>
      { st with circles := fun k => if k == cid then some data else st.circles k }
  | BatchOp.updateInviteToUser inviteId uid =>
      { st with invites := st.invites.map (fun i =>
          if i.id == inviteId then { i with toUserId := some uid } else i) }

/-- `batch.commit()`: apply all staged operations, all-or-nothing. -/
def applyBatch (ops : List BatchOp) (st : ProvisionStore) : ProvisionStore :=
  ops.foldl applyOp st

/-- Modelled from the spec: the body of `processInvitesForNewUser` is not
in the repository snapshot (only its call site in `createNewUserData`).
Per spec §4.3/§8 it is a separate network call, performed before the batch
commits, that rewrites the pending invites addressed to the new user's
email to reference the new user id; its writes are not part of the atomic
batch. -/
def processInvitesForNewUser (uid email : String) (st : ProvisionStore) : ProvisionStore :=
  { st with invites := st.invites.map (fun i =>
      if i.toEmail == some email && i.status == InviteStatus.pending then
        { i with toUserId := some uid }
      else i) }

/-- How one run of `createNewUserData` terminates: normally; with the
awaited invite-processing call rejecting (so `batch.commit()` on line 226
is never reached); or crashing after invite processing but before the
commit (the ordering risk spec §4.3 flags). -/
inductive RunOutcome where
  | ok
  | inviteStepFails
  | crashBeforeCommit
deriving DecidableEq, Repr

/-- One run of `createNewUserData` (`data.ts` lines 185-228) over the
store: stage the batch (user document plus default circles), process
pending invites for the email when one exists, then commit the batch.
A rejection of the invite step propagates before the commit; a crash
between the two leaves the invite writes applied and the batch
uncommitted. -/
def runCreateNewUserData (uid : String) (email : Option String) (payload : FsDoc)
    (gen : Nat → String) (outcome : RunOutcome) (st : ProvisionStore) : ProvisionStore :=
  let ops := createNewUserBatch uid payload gen
  let afterInvites :=
    match email with
    | some e => processInvitesForNewUser uid e st
    | none => st
  match outcome with
  | RunOutcome.inviteStepFails => st
  | RunOutcome.crashBeforeCommit => afterInvites
  | RunOutcome.ok => applyBatch ops afterInvites

/-- Read one field of one user document. -/
def userField (st : ProvisionStore) (uid k : String) : Option FsValue :=
  match st.users uid with
  | some d => d k
  | none => none

/-! ## Goal-suggestion dialog (`GoalDialog`, `src/src/app/circles/[id]/page.tsx`) -/

/-- The `GoalDialog` component state: `isOpen` (prop), `selectedTrait`
(initially `""`) and `isSubmitting` (initially `false`). -/
structure GoalDialogState where
  isOpen : Bool
  selectedTrait : String
  isSubmitting : Bool
deriving DecidableEq, Repr

/-- Modelled from the spec: the body of `sendFamilyGoal` (the dialog's
`onSend` effect) is not in the repository snapshot (only its import in
`page.tsx`). Per spec §4.4/§8 it writes a single `FamilyGoal` document
with status `pending` and the chosen trait. -/
def sendFamilyGoal (gid fromUserId toUserId trait : String)
    (goals : List FamilyGoal) : List FamilyGoal :=
  goals ++ [{ id := gid, fromUserId := fromUserId, toUserId := toUserId,
              trait := trait, status := GoalStatus.pending }]

/-- The dialog's `handleSend` handler (`page.tsx` lines 123-129) together
with the effect of its awaited `onSend`: with no trait selected
(`selectedTrait` falsy, i.e. `""`) it returns immediately — no write, no
state change; otherwise it runs the send and finishes with
`isSubmitting` false and the dialog closed. -/
def handleSend (gid fromUserId toUserId : String) (s : GoalDialogState)
    (goals : List FamilyGoal) : GoalDialogState × List FamilyGoal :=
  if s.selectedTrait == "" then (s, goals)
  else
    ({ s with isSubmitting := false, isOpen := false },
     sendFamilyGoal gid fromUserId toUserId s.selectedTrait goals)

/-! ## Circle-detail member row (`MemberListItem`, `src/src/app/circles/[id]/page.tsx`) -/

/-- The circle data `MemberListItem` reads: document id, `ownerId`, `name`. -/
structure CircleView where
  id : String
  ownerId : String
  name : String
deriving DecidableEq, Repr

/-- An action control rendered in a member row. -/
inductive MemberControl where
  | rateLink : String → String → MemberControl
  | suggestGoalButton : MemberControl
  | removeButton : MemberControl
deriving DecidableEq, Repr

/-- The action controls `MemberListItem` renders for one member row
(`page.tsx` lines 64-117): nothing for the current user's own row;
otherwise the Rate/Re-rate link (non-Family circles), the Suggest Goal
button (Family circle and premium current user), and the Remove button
(only when the current user owns the circle). `memberId` is the row's
member id, `currentUserId` the `useUser` session id, `currentUserPremium`
the truthiness of `currentUser?.isPremium`. -/
def memberRowControls (memberId : String) (circle : CircleView)
    (currentUserId : String) (currentUserPremium : Bool) : List MemberControl :=
  let isCurrentUser := memberId == currentUserId
  let isCircleOwner := circle.ownerId == currentUserId
  if isCurrentUser then []
  else
    (if !(circle.name == "Family") then [MemberControl.rateLink circle.id memberId] else []) ++
    (if circle.name == "Family" && currentUserPremium then [MemberControl.suggestGoalButton] else []) ++
    (if isCircleOwner then [MemberControl.removeButton] else [])

/-! ## Example data (spec §8 end-to-end scenario) -/

/-- The store of the spec's end-to-end example for premium user `P`:
3 pending invites to `P` of which only 2 carry a circle id, 2 pending
reveal requests to `P`, and 1 pending goal suggestion to `P`. -/
def exampleStoreP : NotifStore :=
  { invites :=
      [ { id := "i1", fromUserId := "a", toUserId := some "P",
          circleId := some "c1", status := InviteStatus.pending },
        { id := "i2", fromUserId := "b", toUserId := some "P",
          circleId := some "c2", status := InviteStatus.pending },
        { id := "i3", fromUserId := "c", toUserId := some "P",
          circleId := none, status := InviteStatus.pending } ]
    revealRequests :=
      [ { id := "r1", fromUserId := "P", toUserId := "P", ratingId := "t1",
          status := RevealStatus.pending },
        { id := "r2", fromUserId := "P", toUserId := "P", ratingId := "t2",
          status := RevealStatus.pending } ]
    familyGoals :=
      [ { id := "g1", fromUserId := "q", toUserId := "P", trait := "Patience",
          status := GoalStatus.pending } ] }

/-! ## Theorems for the claims -/

/-- C1: for every user `U`, the aggregator's invite badge count equals the
number of invites in the store received by `U` (`toUser == U`) whose
`circleId` is set (a non-empty id, per the JS truthiness test
`!!invite.circleId`) and whose status is `pending`; invites without a
circle id never contribute, since the counted predicate requires a
truthy `circleId`. -/
theorem invite_badge_counts_pending_circle_invites (u : SessionUser) (st : NotifStore) :
    (fetchNotifications u st).inviteCount =
      (st.invites.filter (fun i =>
        i.toUserId == some u.id && jsTruthy i.circleId
          && i.status == InviteStatus.pending)).length := by
  show ((st.invites.filter (fun i => i.toUserId == some u.id)).filter actionableInvite).length
      = _
  rw [List.filter_filter]
  congr 1
  apply List.filter_congr
  intro i _
  unfold actionableInvite
  cases h1 : (i.toUserId == some u.id) <;> cases h2 : jsTruthy i.circleId <;>
    cases h3 : (i.status == InviteStatus.pending) <;> simp [h1, h2, h3]

/-- C2: for a non-premium user the reveal-request badge is 0 no matter
what reveal requests the store holds, and an aggregation cycle is
completely independent of the reveal-request fetch slot (the fetch is
replaced by `Promise.resolve([])`, so it is never issued and behaves as
an empty result even if the slot would have rejected). -/
theorem reveal_badge_zero_for_non_premium (ε : Type) (u : SessionUser) (st : NotifStore)
    (rInv : Except ε (List Invite)) (rRev rRev' : Except ε (List RevealRequest))
    (rGoal : Except ε (List FamilyGoal)) (h : u.isPremium = false) :
    (fetchNotifications u st).revealRequestCount = 0 ∧
    fetchCycle u rInv rRev rGoal = fetchCycle u rInv rRev' rGoal := by
  constructor
  · simp [fetchNotifications, h]
  · simp [fetchCycle, h]

/-- Witness for C2: a non-premium user with a pending reveal request in
the store still gets badge 0, and a rejecting reveal slot is
indistinguishable from a resolved one. -/
theorem reveal_badge_zero_for_non_premium_witness :
    (fetchNotifications { id := "u1", isPremium := false }
      { invites := []
        revealRequests := [{ id := "r1", fromUserId := "a", toUserId := "u1",
                             ratingId := "t1", status := RevealStatus.pending }]
        familyGoals := [] }).revealRequestCount = 0 ∧
    fetchCycle { id := "u1", isPremium := false }
        (Except.ok ([] : List Invite)) (Except.error ())
        (Except.ok ([] : List FamilyGoal)) =
      fetchCycle { id := "u1", isPremium := false }
        (Except.ok ([] : List Invite)) (Except.ok ([] : List RevealRequest))
        (Except.ok ([] : List FamilyGoal)) :=
  reveal_badge_zero_for_non_premium Unit { id := "u1", isPremium := false }
    { invites := []
      revealRequests := [{ id := "r1", fromUserId := "a", toUserId := "u1",
                           ratingId := "t1", status := RevealStatus.pending }]
      familyGoals := [] }
    (Except.ok []) (Except.error ()) (Except.ok []) (Except.ok []) rfl

/-- C3: for every user, the aggregator's goal badge equals the number of
pending family-goal suggestions in the store directed at that user; and
on the spec's end-to-end example the premium user `P` (2 pending reveal
requests, 1 pending goal, 3 pending invites of which 2 carry a circle id)
gets badges invite=2, reveal=2, goal=1. -/
theorem goal_badge_counts_pending_goals :
    (∀ (u : SessionUser) (st : NotifStore),
      (fetchNotifications u st).goalSuggestionCount =
        (st.familyGoals.filter (fun g =>
          g.toUserId == u.id && g.status == GoalStatus.pending)).length) ∧
    fetchNotifications { id := "P", isPremium := true } exampleStoreP =
      { inviteCount := 2, revealRequestCount := 2, goalSuggestionCount := 1 } :=
  ⟨fun _ _ => rfl, rfl⟩

/-- C4: an aggregation cycle is all-or-nothing: if any issued fetch
rejects (the reveal fetch is only issued for premium users) the previous
badge counts are kept unchanged, and if all issued fetches resolve, all
three badge counts come from this cycle's results. -/
theorem notification_cycle_all_or_nothing (ε : Type) (u : SessionUser) (prev : BadgeCounts)
    (rInv : Except ε (List Invite)) (rRev : Except ε (List RevealRequest))
    (rGoal : Except ε (List FamilyGoal)) :
    ((exceptOk rInv && (!u.isPremium || exceptOk rRev) && exceptOk rGoal) = false →
      updateBadges prev (fetchCycle u rInv rRev rGoal) = prev) ∧
    (∀ inv rev goals, rInv = Except.ok inv → rRev = Except.ok rev →
      rGoal = Except.ok goals →
      updateBadges prev (fetchCycle u rInv rRev rGoal) =
        { inviteCount := (inv.filter actionableInvite).length
          revealRequestCount := (if u.isPremium then rev else []).length
          goalSuggestionCount := goals.length }) := by
  constructor
  · intro h
    cases rInv <;> cases rGoal <;> cases hp : u.isPremium <;> cases rRev <;>
      simp [exceptOk, hp, fetchCycle, promiseAll3, updateBadges] at h ⊢
  · intro inv rev goals h1 h2 h3
    subst h1; subst h2; subst h3
    cases hp : u.isPremium <;> simp [fetchCycle, promiseAll3, updateBadges, hp]

/-- Witness for C4: a rejected invite fetch leaves the previous counts
`⟨5, 6, 7⟩` untouched, while a fully resolved cycle installs this cycle's
counts. -/
theorem notification_cycle_all_or_nothing_witness :
    updateBadges { inviteCount := 5, revealRequestCount := 6, goalSuggestionCount := 7 }
      (fetchCycle { id := "u1", isPremium := true }
        (Except.error ()) (Except.ok ([] : List RevealRequest))
        (Except.ok ([] : List FamilyGoal))) =
      { inviteCount := 5, revealRequestCount := 6, goalSuggestionCount := 7 } ∧
    updateBadges { inviteCount := 5, revealRequestCount := 6, goalSuggestionCount := 7 }
      (fetchCycle { id := "u1", isPremium := true }
        (Except.ok ([] : List Invite) : Except Unit (List Invite))
        (Except.ok ([] : List RevealRequest))
        (Except.ok ([] : List FamilyGoal))) =
      { inviteCount := 0, revealRequestCount := 0, goalSuggestionCount := 0 } :=
  ⟨(notification_cycle_all_or_nothing Unit { id := "u1", isPremium := true }
      { inviteCount := 5, revealRequestCount := 6, goalSuggestionCount := 7 }
      (Except.error ()) (Except.ok []) (Except.ok [])).1 (by decide),
   (notification_cycle_all_or_nothing Unit { id := "u1", isPremium := true }
      { inviteCount := 5, revealRequestCount := 6, goalSuggestionCount := 7 }
      (Except.ok []) (Except.ok []) (Except.ok [])).2 [] [] [] rfl rfl rfl⟩

/-- C5: the provisioning write of the user document has merge semantics:
any field absent from the `newUser` payload (in particular `stripeId`,
which a concurrently-run subscription function may have created) reads the
same after a successful `createNewUserData` run as before it. -/
theorem create_user_merge_preserves_absent_fields
    (dn fn ln em ph : String) (t : Nat) (uid : String) (email : Option String)
    (gen : Nat → String) (st : ProvisionStore) (k : String)
    (h : newUserPayload dn fn ln em ph t k = none) :
    userField (runCreateNewUserData uid email (newUserPayload dn fn ln em ph t) gen
        RunOutcome.ok st) uid k
      = userField st uid k := by
  have husers : (runCreateNewUserData uid email (newUserPayload dn fn ln em ph t) gen
      RunOutcome.ok st).users =
      fun q => if q == uid then
        some (setMerge ((st.users uid).getD emptyDoc) (newUserPayload dn fn ln em ph t))
      else st.users q := by
    cases email <;> rfl
  unfold userField
  rw [husers]
  simp only [beq_self_eq_true, if_pos]
  rw [setMerge, h]
  cases hu : st.users uid <;> simp [emptyDoc, Option.getD]

/-- A pre-existing user document holding a concurrently-created Stripe id. -/
def stripeOldDoc : FsDoc :=
  fun k => if k == "stripeId" then some (FsValue.str "cus_123") else none

/-- A store that already holds `stripeOldDoc` for the user being provisioned. -/
def stripeStore : ProvisionStore :=
  { users := fun k => if k == "u1" then some stripeOldDoc else none
    circles := fun _ => none
    invites := [] }

/-- Witness for C5: the payload has no `stripeId` field, so provisioning
leaves the pre-existing `stripeId` value `cus_123` in place. -/
theorem create_user_merge_preserves_absent_fields_witness :
    newUserPayload "Dana Doe" "Dana" "Doe" "a@x.com" "p.png" 17 "stripeId" = none ∧
    userField (runCreateNewUserData "u1" (some "a@x.com")
        (newUserPayload "Dana Doe" "Dana" "Doe" "a@x.com" "p.png" 17)
        (fun i => toString i) RunOutcome.ok stripeStore) "u1" "stripeId"
      = userField stripeStore "u1" "stripeId" ∧
    userField stripeStore "u1" "stripeId" = some (FsValue.str "cus_123") :=
  ⟨rfl,
   create_user_merge_preserves_absent_fields "Dana Doe" "Dana" "Doe" "a@x.com" "p.png" 17
     "u1" (some "a@x.com") (fun i => toString i) stripeStore "stripeId" rfl,
   rfl⟩

/-- C6: the batch staged by `createNewUserData` starts with the merged
user write and otherwise stages exactly one circle document per default
circle kind — their names enumerate `defaultCircles` (Friends, Family,
Work, General) one for one — each with `ownerId` the new user's id and
`memberIds` the singleton list of the new user's id; 4 circle writes in
all, in the same all-or-nothing batch. -/
theorem provisioning_batch_default_circles (uid : String) (payload : FsDoc)
    (gen : Nat → String) :
    (createNewUserBatch uid payload gen).head? =
        some (BatchOp.setUserMerge uid payload) ∧
    ((createNewUserBatch uid payload gen).filter BatchOp.isCircleSet).map
        BatchOp.circleName = defaultCircles ∧
    (((createNewUserBatch uid payload gen).filter BatchOp.isCircleSet).all
        (fun op => op.circleOwnerId == uid && op.circleMemberIds == [uid])) = true ∧
    ((createNewUserBatch uid payload gen).filter BatchOp.isCircleSet).length = 4 := by
  refine ⟨rfl, rfl, ?_, rfl⟩
  simp [createNewUserBatch, defaultCircles, List.enum, List.enumFrom,
    BatchOp.isCircleSet, BatchOp.circleOwnerId, BatchOp.circleMemberIds]

/-- C7: invite processing in `createNewUserData` is outside the atomic
batch and ordered before its commit: the staged batch holds no invite
write; a crash after invite processing but before the commit leaves the
invites rewritten and the user/circle writes unapplied (so the processing
call completes before the commit); and when the awaited invite step
rejects, the batch is simply never committed — the user and circle
collections are exactly as before, neither applied nor rolled back. -/
theorem invite_processing_outside_batch (uid email : String) (payload : FsDoc)
    (gen : Nat → String) (st : ProvisionStore) :
    ((createNewUserBatch uid payload gen).all (fun op => !op.isInviteOp)) = true ∧
    runCreateNewUserData uid (some email) payload gen RunOutcome.crashBeforeCommit st
      = processInvitesForNewUser uid email st ∧
    (runCreateNewUserData uid (some email) payload gen RunOutcome.inviteStepFails st).users
      = st.users ∧
    (runCreateNewUserData uid (some email) payload gen RunOutcome.inviteStepFails st).circles
      = st.circles :=
  ⟨rfl, rfl, rfl, rfl⟩

/-- C8: the dialog's send handler is a no-op (no goal written, dialog
state — open, not submitting — unchanged) while no trait is selected, and
with a trait `T` selected it writes exactly one new `FamilyGoal` with
status `pending` and trait `T` and closes the dialog. -/
theorem goal_dialog_send_guard (gid fromId toId : String) (s : GoalDialogState)
    (goals : List FamilyGoal) :
    (s.selectedTrait = "" → handleSend gid fromId toId s goals = (s, goals)) ∧
    (s.selectedTrait ≠ "" →
      handleSend gid fromId toId s goals =
        ({ s with isSubmitting := false, isOpen := false },
         goals ++ [{ id := gid, fromUserId := fromId, toUserId := toId,
                     trait := s.selectedTrait, status := GoalStatus.pending }])) := by
  constructor
  · intro h
    simp [handleSend, h]
  · intro h
    simp [handleSend, h, sendFamilyGoal]

/-- Witness for C8: with the dialog open and no trait selected, send
changes nothing; with trait `Patience` selected, send appends the pending
goal and closes the dialog. -/
theorem goal_dialog_send_guard_witness :
    handleSend "g1" "u1" "u2" { isOpen := true, selectedTrait := "", isSubmitting := false } []
      = ({ isOpen := true, selectedTrait := "", isSubmitting := false }, []) ∧
    handleSend "g1" "u1" "u2"
        { isOpen := true, selectedTrait := "Patience", isSubmitting := false } []
      = ({ isOpen := false, selectedTrait := "Patience", isSubmitting := false },
         [{ id := "g1", fromUserId := "u1", toUserId := "u2",
            trait := "Patience", status := GoalStatus.pending }]) :=
  ⟨(goal_dialog_send_guard "g1" "u1" "u2"
      { isOpen := true, selectedTrait := "", isSubmitting := false } []).1 rfl,
   (goal_dialog_send_guard "g1" "u1" "u2"
      { isOpen := true, selectedTrait := "Patience", isSubmitting := false } []).2
     (by decide)⟩

/-- C9: the Remove control is owner-gated: when the current user is not
the circle's owner, no member row renders a Remove button, so a non-owner
cannot reach the removal handler from the circle-detail page. -/
theorem remove_control_owner_only (memberId : String) (c : CircleView)
    (currentUserId : String) (premium : Bool) (h : c.ownerId ≠ currentUserId) :
    MemberControl.removeButton ∉ memberRowControls memberId c currentUserId premium := by
  have hov : (c.ownerId == currentUserId) = false := by
    simp [h]
  by_cases h1 : memberId = currentUserId <;>
    by_cases h2 : c.name = "Family" <;>
      cases premium <;>
        simp [memberRowControls, h1, h2, hov]

/-- Witness for C9: a non-owner premium viewer of a Family circle sees no
Remove button on another member's row. -/
theorem remove_control_owner_only_witness :
    ("owner" : String) ≠ "viewer" ∧
    MemberControl.removeButton ∉
      memberRowControls "m1" { id := "c1", ownerId := "owner", name := "Family" }
        "viewer" true :=
  ⟨by decide,
   remove_control_owner_only "m1" { id := "c1", ownerId := "owner", name := "Family" }
     "viewer" true (by decide)⟩

/-- C10: the row for the current user themselves renders no action
controls at all — no Rate/Re-rate link, no Suggest Goal button and no
Remove button — whatever the circle and premium flag; in particular a
circle owner has no Remove control on their own row. -/
theorem own_row_has_no_controls (currentUserId : String) (c : CircleView)
    (premium : Bool) :
    memberRowControls currentUserId c currentUserId premium = [] := by
  simp [memberRowControls]

end MirrorNet
